import Mathlib

/-!
Verification of the sentiment-analysis HTTP service (src/main.py).

The service has two endpoints:
* `GET /` (read_root): returns a fixed status message.
* `POST /predict` (predict_sentiment): validates a `TextInput` body,
  runs the loaded sentiment pipeline on the text, and returns
  `{"input_text": text, "prediction": result[0]}`.

We embed JSON values, the Pydantic validation of `TextInput`, and the
handler body. The underlying transformers pipeline is third-party code,
so it is an abstract parameter `Model`; where a claim depends on the
model's own output contract we state that contract as a predicate
modelled from the spec.
-/

/-- JSON values, with numbers as rationals (scores are compared, not
rounded, in every property of interest). -/
inductive Json where
  | null : Json
  | bool (b : Bool) : Json
  | num (q : ℚ) : Json
  | str (s : String) : Json
  | arr (elems : List Json) : Json
  | obj (fields : List (String × Json)) : Json

/-- Field lookup in a JSON object field list (first match). -/
def lookupField : List (String × Json) → String → Option Json
  | [], _ => none
  | (k, v) :: rest, key => if k = key then some v else lookupField rest key

/-- Field access on a JSON value: `some` only for objects with the key. -/
def Json.getField : Json → String → Option Json
  | .obj fields, key => lookupField fields key
  | _, _ => none

/-- A structured validation failure: location of the offending field,
human-readable message, and machine-readable error type. -/
structure ValidationError where
  loc : List String
  msg : String
  type : String
deriving DecidableEq

/-- An HTTP response: status code and JSON body. -/
structure Response where
  status : Nat
  body : Json

/-- Modelled from the spec: validation of the request body against
`TextInput` (src/main.py lines 34-35 declare the single field
`text : str`; the validation engine itself is the Pydantic library and
is not under src/). Per the spec, the field must be present and
textual; if absent or wrong-shaped the result is a structured
description of the failure naming the field and the expected type.
Fields other than `text` are neither forbidden nor read. -/
def validateTextInput (body : Json) : Except ValidationError String :=
  match body.getField "text" with
  | some (.str s) => .ok s
  | some _ => .error ⟨["body", "text"], "Input should be a valid string", "string_type"⟩
  | none => .error ⟨["body", "text"], "Field required", "missing"⟩

/-- The JSON body of a 422 validation-error response, carrying the
field location, message and expected-type tag. -/
def validationErrorBody (e : ValidationError) : Json :=
  .obj [("detail", .arr [ .obj
    [ ("loc", .arr (e.loc.map Json.str))
    , ("msg", .str e.msg)
    , ("type", .str e.type) ] ])]

/-- The fixed opaque response produced when an exception escapes the
handler: status 500, constant body, no internal details. -/
def internalServerErrorResponse : Response :=
  ⟨500, .str "Internal Server Error"⟩

/-- The loaded sentiment pipeline, abstractly: maps a text either to an
exception (`.error`) or to a list of loosely structured results. -/
def Model : Type := String → Except Unit (List Json)

/-- Exceptions that can escape the handler body. -/
inductive PyError where
  | indexError : PyError
  | modelError : PyError
deriving DecidableEq

/-- The body of `predict_sentiment` (src/main.py lines 39-51) after
validation has produced `text`: run the pipeline (its exception, if
any, propagates), index `result[0]` (an IndexError on an empty list
propagates unguarded), and build the response dict. -/
def predict_body (model : Model) (text : String) : Except PyError Json :=
  match model text with
  | .error _ => .error .modelError
  | .ok results =>
    match results with
    | [] => .error .indexError
    | r :: _ => .ok (.obj [("input_text", .str text), ("prediction", r)])

/-- The `POST /predict` operation: framework validation of the body
against `TextInput` (422 on failure, the handler and model never run),
then the handler body; any exception escaping it becomes the fixed 500
response, otherwise the returned dict is served with status 200. -/
def predict_sentiment (model : Model) (body : Json) : Response :=
  match validateTextInput body with
  | .error e => ⟨422, validationErrorBody e⟩
  | .ok text =>
    match predict_body model text with
    | .error _ => internalServerErrorResponse
    | .ok j => ⟨200, j⟩

/-- The `GET /` operation (src/main.py lines 28-30): a constant — it
reads no state and takes no input, in particular no model. -/
def read_root : Response :=
  ⟨200, .obj [("message", .str "Sentiment Analysis API is running!")]⟩

/-- A sequence of predict requests served by one process: the handler
keeps no state across requests (src/main.py reads only the read-only
module-level pipeline), so serving is a map. -/
def serve (model : Model) (reqs : List Json) : List Response :=
  reqs.map (predict_sentiment model)

/-- The model's fixed label set (src/test_main.py line 25). -/
def sentimentLabels : List String := ["POSITIVE", "NEGATIVE"]

/-- A well-formed pipeline result element: a dict with the label and
the confidence score. -/
def mkPrediction (label : String) (score : ℚ) : Json :=
  .obj [("label", .str label), ("score", .num score)]

/-- Modelled from the spec: the Model Loader contract (spec sections 3
and 4.1) for the transformers pipeline, which is not under src/. Every
successful `classify` call yields exactly one result whose `label` is
in the fixed label set and whose `score` lies strictly between 0
and 1. -/
def GoodModel (m : Model) : Prop :=
  ∀ text results, m text = .ok results →
    ∃ label score, results = [mkPrediction label score] ∧
      label ∈ sentimentLabels ∧ 0 < score ∧ score < 1

/-- A concrete pipeline used to instantiate theorems: always one
well-formed positive result with confidence 1/2. -/
def goodConstModel : Model := fun _ => .ok [mkPrediction "POSITIVE" (1/2)]

/-- A concrete pipeline that always raises. -/
def failModel : Model := fun _ => .error ()

/-- A concrete pipeline that returns an empty result list. -/
def emptyModel : Model := fun _ => .ok []

/-- A concrete pipeline whose single result lacks the label and score
fields entirely. -/
def malformedModel : Model := fun _ => .ok [Json.obj [("foo", Json.num 1)]]

/-! ## Helper lemmas -/

/-- Shape of any successful handler-body result: it is the envelope of
the pipeline's first result. -/
theorem predict_body_ok_shape (m : Model) (text : String) (j : Json)
    (h : predict_body m text = .ok j) :
    ∃ r rest, m text = .ok (r :: rest) ∧
      j = .obj [("input_text", .str text), ("prediction", r)] := by
  unfold predict_body at h
  cases hm : m text with
  | error e => rw [hm] at h; exact Except.noConfusion h
  | ok results =>
    rw [hm] at h
    cases results with
    | nil => exact Except.noConfusion h
    | cons r rest =>
      injection h with h
      exact ⟨r, rest, rfl, h.symm⟩

/-- Position of each response in a served request sequence. -/
theorem serve_index (m : Model) (pre post : List Json) (r : Json) :
    (serve m (pre ++ r :: post))[pre.length]? = some (predict_sentiment m r) := by
  simp only [serve, List.map_append, List.map_cons]
  rw [List.getElem?_append_right (by simp)]
  simp

/-! ## Claim theorems -/

/-- C1: Echo invariant — for every request body whose `text` field
validates to a string `text`, a successful (status 200) response of the
predict operation carries an `input_text` field exactly equal to the
submitted text. -/
theorem predict_echo_invariant (m : Model) (body : Json) (text : String)
    (hv : validateTextInput body = .ok text)
    (h200 : (predict_sentiment m body).status = 200) :
    (predict_sentiment m body).body.getField "input_text" = some (.str text) := by
  cases hpb : predict_body m text with
  | error e =>
    exfalso
    have h : predict_sentiment m body = internalServerErrorResponse := by
      simp [predict_sentiment, hv, hpb]
    rw [h] at h200
    simp [internalServerErrorResponse] at h200
  | ok j =>
    obtain ⟨r, rest, _, hj⟩ := predict_body_ok_shape m text j hpb
    have h : predict_sentiment m body = ⟨200, j⟩ := by
      simp [predict_sentiment, hv, hpb]
    rw [h, hj]
    rfl

/-- Witness for C1 at the spec's scenario input. -/
theorem predict_echo_invariant_witness :
    (predict_sentiment goodConstModel
        (Json.obj [("text", Json.str "What a lovely day!")])).body.getField "input_text"
      = some (.str "What a lovely day!") :=
  predict_echo_invariant goodConstModel
    (Json.obj [("text", Json.str "What a lovely day!")]) "What a lovely day!" rfl rfl

/-- Auxiliary for C2's witness: the constant pipeline satisfies the
Model Loader contract. -/
theorem goodConstModel_good : GoodModel goodConstModel := by
  intro text results h
  refine ⟨"POSITIVE", 1/2, (Except.ok.inj h).symm, ?_, ?_, ?_⟩
  · simp [sentimentLabels]
  · norm_num
  · norm_num

/-- C2: For valid non-empty text inputs, under the Model Loader
contract, a successful predict response carries a `prediction` whose
`label` is in the fixed label set and whose `score` lies strictly
between 0 and 1. -/
theorem predict_label_score_invariant (m : Model) (body : Json) (text : String)
    (hgood : GoodModel m)
    (hv : validateTextInput body = .ok text)
    (_hne : text ≠ "")
    (h200 : (predict_sentiment m body).status = 200) :
    ∃ label score,
      (predict_sentiment m body).body.getField "prediction" = some (mkPrediction label score) ∧
      label ∈ sentimentLabels ∧ 0 < score ∧ score < 1 := by
  cases hm : m text with
  | error e =>
    exfalso
    have h : predict_sentiment m body = internalServerErrorResponse := by
      simp [predict_sentiment, hv, predict_body, hm]
    rw [h] at h200
    simp [internalServerErrorResponse] at h200
  | ok results =>
    obtain ⟨label, score, hres, hlab, h0, h1⟩ := hgood text results hm
    subst hres
    refine ⟨label, score, ?_, hlab, h0, h1⟩
    have h : predict_sentiment m body =
        ⟨200, .obj [("input_text", .str text), ("prediction", mkPrediction label score)]⟩ := by
      simp [predict_sentiment, hv, predict_body, hm]
    rw [h]
    rfl

/-- Witness for C2 at the spec's scenario input. -/
theorem predict_label_score_invariant_witness :
    ∃ label score,
      (predict_sentiment goodConstModel
          (Json.obj [("text", Json.str "What a lovely day!")])).body.getField "prediction"
        = some (mkPrediction label score) ∧
      label ∈ sentimentLabels ∧ 0 < score ∧ score < 1 :=
  predict_label_score_invariant goodConstModel
    (Json.obj [("text", Json.str "What a lovely day!")]) "What a lovely day!"
    goodConstModel_good rfl (by decide) rfl

/-- C3: A request body whose `text` field is absent or not textual is
rejected by validation with a structured 422 response naming the field
and the error kind, identically for every model (the model is never
invoked) — never a server error. -/
theorem invalid_text_422 (body : Json)
    (hv : ∀ s : String, body.getField "text" ≠ some (Json.str s)) :
    ∃ e : ValidationError,
      validateTextInput body = .error e ∧
      e.loc = ["body", "text"] ∧
      (e.type = "missing" ∨ e.type = "string_type") ∧
      ∀ m : Model, predict_sentiment m body = ⟨422, validationErrorBody e⟩ := by
  cases hf : body.getField "text" with
  | none =>
    refine ⟨⟨["body", "text"], "Field required", "missing"⟩, ?_, rfl, Or.inl rfl, ?_⟩
    · simp [validateTextInput, hf]
    · intro m; simp [predict_sentiment, validateTextInput, hf]
  | some j =>
    cases j with
    | str s => exact absurd hf (hv s)
    | null =>
      refine ⟨⟨["body", "text"], "Input should be a valid string", "string_type"⟩,
        ?_, rfl, Or.inr rfl, ?_⟩
      · simp [validateTextInput, hf]
      · intro m; simp [predict_sentiment, validateTextInput, hf]
    | bool b =>
      refine ⟨⟨["body", "text"], "Input should be a valid string", "string_type"⟩,
        ?_, rfl, Or.inr rfl, ?_⟩
      · simp [validateTextInput, hf]
      · intro m; simp [predict_sentiment, validateTextInput, hf]
    | num q =>
      refine ⟨⟨["body", "text"], "Input should be a valid string", "string_type"⟩,
        ?_, rfl, Or.inr rfl, ?_⟩
      · simp [validateTextInput, hf]
      · intro m; simp [predict_sentiment, validateTextInput, hf]
    | arr elems =>
      refine ⟨⟨["body", "text"], "Input should be a valid string", "string_type"⟩,
        ?_, rfl, Or.inr rfl, ?_⟩
      · simp [validateTextInput, hf]
      · intro m; simp [predict_sentiment, validateTextInput, hf]
    | obj fields =>
      refine ⟨⟨["body", "text"], "Input should be a valid string", "string_type"⟩,
        ?_, rfl, Or.inr rfl, ?_⟩
      · simp [validateTextInput, hf]
      · intro m; simp [predict_sentiment, validateTextInput, hf]

/-- Witness for C3 at the spec's malformed-body scenario (wrong field
name `txt`). -/
theorem invalid_text_422_witness :
    ∃ e : ValidationError,
      validateTextInput (Json.obj [("txt", Json.str "hello")]) = .error e ∧
      e.loc = ["body", "text"] ∧
      (e.type = "missing" ∨ e.type = "string_type") ∧
      ∀ m : Model,
        predict_sentiment m (Json.obj [("txt", Json.str "hello")]) = ⟨422, validationErrorBody e⟩ :=
  invalid_text_422 (Json.obj [("txt", Json.str "hello")])
    (fun s h => by simp [Json.getField, lookupField] at h)

/-- C4: If the pipeline call raises during a valid predict request, the
response is exactly the fixed opaque 500 server-error response — no
partial result, no internal details. -/
theorem model_error_500 (m : Model) (body : Json) (text : String)
    (hv : validateTextInput body = .ok text)
    (hm : m text = .error ()) :
    predict_sentiment m body = internalServerErrorResponse ∧
    (predict_sentiment m body).status = 500 ∧
    (predict_sentiment m body).body = Json.str "Internal Server Error" := by
  have h : predict_sentiment m body = internalServerErrorResponse := by
    simp [predict_sentiment, hv, predict_body, hm]
  exact ⟨h, by rw [h]; rfl, by rw [h]; rfl⟩

/-- Witness for C4: a pipeline that always raises. -/
theorem model_error_500_witness :
    predict_sentiment failModel (Json.obj [("text", Json.str "hi")]) = internalServerErrorResponse ∧
    (predict_sentiment failModel (Json.obj [("text", Json.str "hi")])).status = 500 ∧
    (predict_sentiment failModel (Json.obj [("text", Json.str "hi")])).body
      = Json.str "Internal Server Error" :=
  model_error_500 failModel (Json.obj [("text", Json.str "hi")]) "hi" rfl rfl

/-- C5 counterexample: the handler performs no shape assertion on the
pipeline's first result. With a pipeline whose single result has
neither `label` nor `score`, the predict operation still answers 200
and passes the malformed dict through unshaped, instead of converting
the structural mismatch into an inference (server) error. -/
theorem predict_no_shape_check_cex :
    (predict_sentiment malformedModel (Json.obj [("text", Json.str "hi")])).status = 200 ∧
    (predict_sentiment malformedModel (Json.obj [("text", Json.str "hi")])).body.getField "prediction"
      = some (Json.obj [("foo", Json.num 1)]) ∧
    (Json.obj [("foo", Json.num 1)]).getField "label" = none ∧
    (Json.obj [("foo", Json.num 1)]).getField "score" = none :=
  ⟨rfl, rfl, rfl, rfl⟩

/-- C5 amended: the handler extracts exactly the first element of the
pipeline's result and places it in the response envelope without any
shape assertion — whatever the first result is, it is returned verbatim
in a 200 response. -/
theorem predict_first_result_passthrough (m : Model) (body : Json) (text : String)
    (r : Json) (rest : List Json)
    (hv : validateTextInput body = .ok text)
    (hm : m text = .ok (r :: rest)) :
    predict_sentiment m body =
      ⟨200, Json.obj [("input_text", Json.str text), ("prediction", r)]⟩ := by
  simp [predict_sentiment, hv, predict_body, hm]

/-- Witness for the amended C5 at a malformed pipeline result. -/
theorem predict_first_result_passthrough_witness :
    predict_sentiment malformedModel (Json.obj [("text", Json.str "hi")]) =
      ⟨200, Json.obj [("input_text", Json.str "hi"),
                      ("prediction", Json.obj [("foo", Json.num 1)])]⟩ :=
  predict_first_result_passthrough malformedModel (Json.obj [("text", Json.str "hi")])
    "hi" (Json.obj [("foo", Json.num 1)]) [] rfl rfl

/-- C6: The health-check operation is the fixed 200 response with the
exact payload of src/main.py line 30; being a constant of the
embedding it reads no model and no state, and any number of repeated
calls yields the identical response. -/
theorem read_root_fixed_payload :
    read_root.status = 200 ∧
    read_root.body = Json.obj [("message", Json.str "Sentiment Analysis API is running!")] ∧
    ∀ n : Nat, (List.replicate n ()).map (fun _ => read_root) = List.replicate n read_root := by
  refine ⟨rfl, rfl, fun n => ?_⟩
  simp

/-- C7: If the pipeline returns zero results, the handler body hits the
unguarded `result[0]` access: the escaping exception is the raw index
fault, not the model's inference error. -/
theorem empty_result_unguarded_index_fault (m : Model) (text : String)
    (hm : m text = .ok []) :
    predict_body m text = .error PyError.indexError ∧
    PyError.indexError ≠ PyError.modelError := by
  constructor
  · simp [predict_body, hm]
  · decide

/-- Witness for C7: the pipeline returning an empty list. -/
theorem empty_result_unguarded_index_fault_witness :
    predict_body emptyModel "hi" = .error PyError.indexError ∧
    PyError.indexError ≠ PyError.modelError :=
  empty_result_unguarded_index_fault emptyModel "hi" rfl

/-- C8: The empty string passes `TextInput` validation, so the pipeline
is still invoked; whatever first result the pipeline produces is
returned in a well-formed 200 envelope — the handler does not crash on
empty input. -/
theorem empty_string_accepted (m : Model) (r : Json) (rest : List Json)
    (hm : m "" = .ok (r :: rest)) :
    validateTextInput (Json.obj [("text", Json.str "")]) = .ok "" ∧
    predict_sentiment m (Json.obj [("text", Json.str "")]) =
      ⟨200, Json.obj [("input_text", Json.str ""), ("prediction", r)]⟩ := by
  refine ⟨rfl, ?_⟩
  simp [predict_sentiment, validateTextInput, Json.getField, lookupField, predict_body, hm]

/-- Witness for C8 at the well-formed constant pipeline. -/
theorem empty_string_accepted_witness :
    validateTextInput (Json.obj [("text", Json.str "")]) = .ok "" ∧
    predict_sentiment goodConstModel (Json.obj [("text", Json.str "")]) =
      ⟨200, Json.obj [("input_text", Json.str ""),
                      ("prediction", mkPrediction "POSITIVE" (1/2))]⟩ :=
  empty_string_accepted goodConstModel (mkPrediction "POSITIVE" (1/2)) [] rfl

/-- C9: Determinism and statelessness — serving the same request twice
against the same model yields two identical responses, and the response
at a request's position in any served sequence equals the response to
that request alone, independent of all other requests before or after
it. -/
theorem predict_stateless_deterministic (m : Model)
    (pre1 pre2 post1 post2 : List Json) (r : Json) :
    serve m [r, r] = [predict_sentiment m r, predict_sentiment m r] ∧
    (serve m (pre1 ++ r :: post1))[pre1.length]? = some (predict_sentiment m r) ∧
    (serve m (pre1 ++ r :: post1))[pre1.length]? = (serve m (pre2 ++ r :: post2))[pre2.length]? := by
  refine ⟨rfl, serve_index m pre1 post1 r, ?_⟩
  rw [serve_index m pre1 post1 r, serve_index m pre2 post2 r]

/-- C10: A body holding a string `text` field along with arbitrary
other fields validates to the same text, produces exactly the response
of the body with `text` alone, and (when the pipeline succeeds) is
accepted with status 200 — extra fields are neither forbidden nor
read. -/
theorem extra_fields_ignored (m : Model) (fields : List (String × Json))
    (s : String) (r : Json) (rest : List Json)
    (hf : lookupField fields "text" = some (Json.str s))
    (hm : m s = .ok (r :: rest)) :
    validateTextInput (Json.obj fields) = .ok s ∧
    predict_sentiment m (Json.obj fields) = predict_sentiment m (Json.obj [("text", Json.str s)]) ∧
    (predict_sentiment m (Json.obj fields)).status = 200 := by
  have hval : validateTextInput (Json.obj fields) = .ok s := by
    simp [validateTextInput, Json.getField, hf]
  have h1 : predict_sentiment m (Json.obj fields) =
      ⟨200, Json.obj [("input_text", Json.str s), ("prediction", r)]⟩ := by
    simp [predict_sentiment, hval, predict_body, hm]
  have h2 : predict_sentiment m (Json.obj [("text", Json.str s)]) =
      ⟨200, Json.obj [("input_text", Json.str s), ("prediction", r)]⟩ := by
    simp [predict_sentiment, validateTextInput, Json.getField, lookupField, predict_body, hm]
  exact ⟨hval, h1.trans h2.symm, by rw [h1]⟩

/-- Witness for C10 at the body having an unknown extra field. -/
theorem extra_fields_ignored_witness :
    validateTextInput (Json.obj [("text", Json.str "hi"), ("extra", Json.num 1)]) = .ok "hi" ∧
    predict_sentiment goodConstModel (Json.obj [("text", Json.str "hi"), ("extra", Json.num 1)]) =
      predict_sentiment goodConstModel (Json.obj [("text", Json.str "hi")]) ∧
    (predict_sentiment goodConstModel
        (Json.obj [("text", Json.str "hi"), ("extra", Json.num 1)])).status = 200 :=
  extra_fields_ignored goodConstModel [("text", Json.str "hi"), ("extra", Json.num 1)]
    "hi" (mkPrediction "POSITIVE" (1/2)) [] rfl rfl
